import Mathlib

/-! Physika: the 4x4 specialisation of `SquareMatrix`.

A shallow embedding of `Physika_Core/Matrices/matrix4x4.cpp`, built-in storage
backend (`PHYSIKA_USE_BUILT_IN_MATRIX`).

* `Scalar` is a type parameter `α` carrying just the operations a member
  function uses (`+`, `-`, `*`, `/`, unary minus, `<`, `!=`).
* `std::exit(EXIT_FAILURE)` after a diagnostic on `std::cerr` is
  `Except.error` carrying the diagnostic; a normal return is `Except.ok`.
* The scalar division by a divisor that the guard of the caller lets through can
  be an integer division by zero, which C++ leaves undefined: the scalar-division
  operators return a `Run`, in which that is an outcome of its own, distinct from
  a return and from the diagnostic exit.
* The scalar comparison `!=` of `operator==` is a parameter of `operator_eq_by`;
  `operator_eq` is its instance for the exact scalar kinds, where two values are
  unequal exactly when they differ.
* `int` loop counters and indices are `Int`; the loops `for(int i = 0; i < 4; ++i)`
  run their body over `0, 1, 2, 3` in that order, threading the mutated state.
-/

namespace Physika

/-- The process outcome of a call: `Except.error msg` is the diagnostic written
to `std::cerr` followed by `std::exit(EXIT_FAILURE)`. -/
abbrev Outcome (β : Type) : Type := Except String β

/-- The values taken by the counter of `for(int i = 0; i < 4; ++i)`. -/
def loopRange : List Int := [0, 1, 2, 3]

/-- A counted loop `for(int i = 0; i < 4; ++i) body`, with the state the body
mutates passed explicitly; an exit inside the body ends the loop. -/
def forLoop {σ : Type} (body : Int → σ → Outcome σ) (s : σ) : Outcome σ :=
  loopRange.foldlM (fun st i => body i st) s

/-- The doubly nested loop over `i` (outer) and `j` (inner) used by every
element-wise member function. -/
def forLoop2 {σ : Type} (body : Int → Int → σ → Outcome σ) (s : σ) : Outcome σ :=
  forLoop (fun i st => forLoop (fun j st2 => body i j st2) st) s

/-- The ways a run can end without returning: the diagnostic written to
`std::cerr` followed by `std::exit(EXIT_FAILURE)`, or an integer division by
zero, for which C++ defines no behaviour (no diagnostic is written and
`std::exit` is not called). -/
inductive Failure where
  | exited (diagnostic : String)
  | division_by_zero
deriving DecidableEq, Repr

/-- The outcome of a call that performs scalar divisions. -/
abbrev Run (β : Type) : Type := Except Failure β

/-- An outcome without division, as the outcome of a run: an exit stays the
same exit. -/
def liftOutcome {β : Type} (o : Outcome β) : Run β :=
  match o with
  | Except.ok v => Except.ok v
  | Except.error msg => Except.error (Failure.exited msg)

/-- The counted loop `for(int i = 0; i < 4; ++i) body` in a run. -/
def runLoop {σ : Type} (body : Int → σ → Run σ) (s : σ) : Run σ :=
  loopRange.foldlM (fun st i => body i st) s

/-- The doubly nested loop over `i` (outer) and `j` (inner) in a run. -/
def runLoop2 {σ : Type} (body : Int → Int → σ → Run σ) (s : σ) : Run σ :=
  runLoop (fun i st => runLoop (fun j st2 => body i j st2) st) s

/-- The constants of `std::numeric_limits<Scalar>` for a scalar kind: `epsilon()`,
and `is_integer`, which tells whether `/` is the integer division. -/
structure ScalarLimits (α : Type) where
  epsilon : α
  is_integer : Bool

variable {α : Type}

/-- The scalar expression `a / b` of a scalar kind.  For an integer kind a zero
divisor has no defined behaviour; every other quotient is the value of the
kind's `/`. -/
def scalar_div [Zero α] [Div α] [DecidableEq α] (limits : ScalarLimits α) (a b : α) : Run α :=
  if limits.is_integer = true ∧ b = 0 then
    Except.error Failure.division_by_zero
  else
    Except.ok (a / b)

/-- Modelled from the spec: the function `abs` of
`Physika_Core/Utilities/math_utilities.h`, which is not among the sources.  It is
the magnitude `|scale|` that the scalar-division precondition compares with the
machine epsilon. -/
def abs [Zero α] [Neg α] [LT α] [DecidableRel (fun a b : α => a < b)] (value : α) : α :=
  if value < 0 then -value else value

/-- Modelled from the spec: the class `Vector<Scalar,4>` of
`Physika_Core/Vectors/vector_4d.h`, which is not among the sources: a fixed-length
vector of four `Scalar` supporting indexed element read and write. -/
structure Vector4 (α : Type) where
  v0 : α
  v1 : α
  v2 : α
  v3 : α
deriving DecidableEq, Repr

namespace Vector4

/-- Modelled from the spec: the constructor `Vector<Scalar,4>(Scalar x)` of the
missing vector class, used as `result(0)`: every element is `x`. -/
def fill (x : α) : Vector4 α :=
  Vector4.mk x x x x

/-- Modelled from the spec: the indexed element read `vec[idx]` of the missing
vector class.  The spec gives the vector no failure mode of its own; a subscript
outside `0..3`, which no loop of this file produces, is reported as a failure
rather than given a value. -/
def operator_index (v : Vector4 α) (idx : Int) : Outcome α :=
  if idx = 0 then Except.ok v.v0
  else if idx = 1 then Except.ok v.v1
  else if idx = 2 then Except.ok v.v2
  else if idx = 3 then Except.ok v.v3
  else Except.error "Vector index out of range!\n"

/-- Modelled from the spec: the indexed element write `vec[idx] = x` of the
missing vector class, with the same treatment of a subscript outside `0..3`. -/
def operator_index_assign (v : Vector4 α) (idx : Int) (x : α) : Outcome (Vector4 α) :=
  if idx = 0 then Except.ok { v with v0 := x }
  else if idx = 1 then Except.ok { v with v1 := x }
  else if idx = 2 then Except.ok { v with v2 := x }
  else if idx = 3 then Except.ok { v with v3 := x }
  else Except.error "Vector index out of range!\n"

/-- Component `i` of a vector, for the statement of the matrix-vector product. -/
def component (v : Vector4 α) (i : Fin 4) : α :=
  match i with
  | 0 => v.v0
  | 1 => v.v1
  | 2 => v.v2
  | 3 => v.v3

end Vector4

/-- Modelled from the spec: the class `SquareMatrix<Scalar,2>`, which is not
among the sources, with its full-element constructor taking the four scalars in
row-major order. -/
structure SquareMatrix2 (α : Type) where
  x00 : α
  x01 : α
  x10 : α
  x11 : α
deriving DecidableEq, Repr

/-- Modelled from the spec: `SquareMatrix<Scalar,2>::determinant()`, the cofactor
expansion along the first row for N=2, whose minors are single elements. -/
def SquareMatrix2.determinant [Sub α] [Mul α] (M : SquareMatrix2 α) : α :=
  M.x00 * M.x11 - M.x01 * M.x10

/-- Modelled from the spec: the class `SquareMatrix<Scalar,3>` of
`Physika_Core/Matrices/matrix_3x3.h`, which is not among the sources, with its
full-element constructor taking the nine scalars in row-major order. -/
structure SquareMatrix3 (α : Type) where
  x00 : α
  x01 : α
  x02 : α
  x10 : α
  x11 : α
  x12 : α
  x20 : α
  x21 : α
  x22 : α
deriving DecidableEq, Repr

/-- Modelled from the spec: `SquareMatrix<Scalar,3>::determinant()`, which is not
among the sources: the cofactor expansion along the first row for N=3,
`Σ_j (-1)^j · M(0,j) · minor_det(0,j)`, each minor being the determinant of the
2x2 matrix left after deleting row 0 and column j. -/
def SquareMatrix3.determinant [Add α] [Sub α] [Mul α] (M : SquareMatrix3 α) : α :=
  M.x00 * (SquareMatrix2.mk M.x11 M.x12 M.x21 M.x22).determinant
    - M.x01 * (SquareMatrix2.mk M.x10 M.x12 M.x20 M.x22).determinant
    + M.x02 * (SquareMatrix2.mk M.x10 M.x11 M.x20 M.x21).determinant

/-- The class `SquareMatrix<Scalar,4>` with built-in storage `Scalar data_[4][4]`:
field `xij` is `data_[i][j]`.  The structure constructor is the full-element
constructor `SquareMatrix(Scalar x00, Scalar x01, ..., Scalar x33)`, which stores
its arguments in row-major order. -/
structure SquareMatrix4 (α : Type) where
  x00 : α
  x01 : α
  x02 : α
  x03 : α
  x10 : α
  x11 : α
  x12 : α
  x13 : α
  x20 : α
  x21 : α
  x22 : α
  x23 : α
  x30 : α
  x31 : α
  x32 : α
  x33 : α
deriving DecidableEq, Repr

namespace SquareMatrix4

/-- The raw array read `data_[i][j]` for in-range indices. -/
def data_ (M : SquareMatrix4 α) (i j : Fin 4) : α :=
  match i, j with
  | 0, 0 => M.x00
  | 0, 1 => M.x01
  | 0, 2 => M.x02
  | 0, 3 => M.x03
  | 1, 0 => M.x10
  | 1, 1 => M.x11
  | 1, 2 => M.x12
  | 1, 3 => M.x13
  | 2, 0 => M.x20
  | 2, 1 => M.x21
  | 2, 2 => M.x22
  | 2, 3 => M.x23
  | 3, 0 => M.x30
  | 3, 1 => M.x31
  | 3, 2 => M.x32
  | 3, 3 => M.x33

/-- The raw array write `data_[i][j] = v` for in-range indices. -/
def setData_ (M : SquareMatrix4 α) (i j : Fin 4) (v : α) : SquareMatrix4 α :=
  match i, j with
  | 0, 0 => { M with x00 := v }
  | 0, 1 => { M with x01 := v }
  | 0, 2 => { M with x02 := v }
  | 0, 3 => { M with x03 := v }
  | 1, 0 => { M with x10 := v }
  | 1, 1 => { M with x11 := v }
  | 1, 2 => { M with x12 := v }
  | 1, 3 => { M with x13 := v }
  | 2, 0 => { M with x20 := v }
  | 2, 1 => { M with x21 := v }
  | 2, 2 => { M with x22 := v }
  | 2, 3 => { M with x23 := v }
  | 3, 0 => { M with x30 := v }
  | 3, 1 => { M with x31 := v }
  | 3, 2 => { M with x32 := v }
  | 3, 3 => { M with x33 := v }

/-- The test `(i>=0&&i<4)&&(j>=0&&j<4)` of `operator()`. -/
def index_valid (i j : Int) : Bool :=
  (decide (i ≥ 0) && decide (i < 4)) && (decide (j ≥ 0) && decide (j < 4))

/-- An `int` known to pass the range test, as an array subscript. -/
def subscript (i : Int) : Fin 4 :=
  Fin.ofNat i.toNat

/-- The member `operator()(int i, int j) const`: exits when the index test
fails, otherwise yields `data_[i][j]`. -/
def operator_call (M : SquareMatrix4 α) (i j : Int) : Outcome α :=
  if !index_valid i j then
    Except.error "Matrix index out of range!\n"
  else
    Except.ok (M.data_ (subscript i) (subscript j))

/-- An assignment through the reference returned by the non-const
`operator()(int i, int j)`: exits when the index test fails, otherwise
stores `v` in `data_[i][j]`. -/
def operator_call_assign (M : SquareMatrix4 α) (i j : Int) (v : α) :
    Outcome (SquareMatrix4 α) :=
  if !index_valid i j then
    Except.error "Matrix index out of range!\n"
  else
    Except.ok (M.setData_ (subscript i) (subscript j) v)

/-- A local `Scalar result[16]`: a map from subscripts to values. -/
abbrev LocalArray (α : Type) : Type := Int → α

/-- The return statement shared by the element-wise operators:
`SquareMatrix<Scalar,4>(result[0], result[1], ..., result[15])`. -/
def ofLocalArray (result : LocalArray α) : SquareMatrix4 α :=
  SquareMatrix4.mk (result 0) (result 1) (result 2) (result 3)
    (result 4) (result 5) (result 6) (result 7)
    (result 8) (result 9) (result 10) (result 11)
    (result 12) (result 13) (result 14) (result 15)

/-- The loop shared by the element-wise operators that fill `result[i*4+j]`
with a value computed from `i` and `j`.  The array is declared uninitialised
in the source; `init` stands for its prior content. -/
def fillLocalArray (init : LocalArray α) (value : Int → Int → Outcome α) :
    Outcome (LocalArray α) :=
  forLoop2 (fun i j result => do
    let v ← value i j
    pure (Function.update result (i * 4 + j) v)) init

/-- The member `operator+ (const SquareMatrix<Scalar,4> &mat4) const`. -/
def operator_add [Zero α] [Add α] (M mat4 : SquareMatrix4 α) : Outcome (SquareMatrix4 α) := do
  let result ← fillLocalArray (fun _ => 0) (fun i j => do
    let a ← M.operator_call i j
    let b ← mat4.operator_call i j
    pure (a + b))
  pure (ofLocalArray result)

/-- The member `operator- (const SquareMatrix<Scalar,4> &mat4) const`. -/
def operator_sub [Zero α] [Sub α] (M mat4 : SquareMatrix4 α) : Outcome (SquareMatrix4 α) := do
  let result ← fillLocalArray (fun _ => 0) (fun i j => do
    let a ← M.operator_call i j
    let b ← mat4.operator_call i j
    pure (a - b))
  pure (ofLocalArray result)

/-- The member `operator== (const SquareMatrix<Scalar,4> &mat4) const`, with the
scalar kind's comparison `a != b` as the parameter `scalar_ne`.  The loop state
is the value already returned by `return false`, if any; once it is set the
remaining iterations do nothing, and `return true` is reached only when it was
never set. -/
def operator_eq_by (scalar_ne : α → α → Bool) (M mat4 : SquareMatrix4 α) : Outcome Bool := do
  let returned ← forLoop2 (fun i j (ret : Option Bool) =>
    match ret with
    | some r => pure (some r)
    | none => do
      let a ← M.operator_call i j
      let b ← mat4.operator_call i j
      if scalar_ne a b then pure (some false) else pure none) none
  match returned with
  | some r => pure r
  | none => pure true

/-- The member `operator==` for an exact scalar kind (the integer kinds, the
rationals), whose `a != b` is true exactly when `a` and `b` differ.  The
floating kinds, where a NaN is unequal to itself, are not of this form. -/
def operator_eq [DecidableEq α] (M mat4 : SquareMatrix4 α) : Outcome Bool :=
  M.operator_eq_by (fun a b => decide (a ≠ b)) mat4

/-- The member `operator* (Scalar scale) const`. -/
def operator_mul_scalar [Zero α] [Mul α] (M : SquareMatrix4 α) (scale : α) :
    Outcome (SquareMatrix4 α) := do
  let result ← fillLocalArray (fun _ => 0) (fun i j => do
    let a ← M.operator_call i j
    pure (a * scale))
  pure (ofLocalArray result)

/-- The member `operator* (const SquareMatrix<Scalar,4> &mat2) const`:
`result` starts as the all-zero matrix and `result(i,j) += (*this)(i,k) * mat2(k,j)`
runs over `i`, `j`, `k`, every access going through `operator()`. -/
def operator_mul [Zero α] [Add α] [Mul α] (M mat2 : SquareMatrix4 α) :
    Outcome (SquareMatrix4 α) :=
  forLoop2 (fun i j result =>
    forLoop (fun k res => do
      let a ← M.operator_call i k
      let b ← mat2.operator_call k j
      let r ← res.operator_call i j
      res.operator_call_assign i j (r + a * b)) result)
    (SquareMatrix4.mk 0 0 0 0 0 0 0 0 0 0 0 0 0 0 0 0)

/-- The member `transpose() const`. -/
def transpose [Zero α] (M : SquareMatrix4 α) : Outcome (SquareMatrix4 α) := do
  let result ← fillLocalArray (fun _ => 0) (fun i j => M.operator_call j i)
  pure (ofLocalArray result)

/-- The member `determinant() const`, built-in branch: the expanded sum of
24 signed products read straight from `data_`. -/
def determinant [Add α] [Sub α] [Mul α] (M : SquareMatrix4 α) : α :=
  M.x00*M.x11*M.x22*M.x33 + M.x00*M.x12*M.x23*M.x31 + M.x00*M.x13*M.x21*M.x32
    - (M.x00*M.x11*M.x23*M.x32 + M.x00*M.x12*M.x21*M.x33 + M.x00*M.x13*M.x22*M.x31)
    + M.x01*M.x10*M.x23*M.x32 + M.x01*M.x12*M.x20*M.x33 + M.x01*M.x13*M.x22*M.x30
    - (M.x01*M.x10*M.x22*M.x33 + M.x01*M.x12*M.x23*M.x30 + M.x01*M.x13*M.x20*M.x32)
    + M.x02*M.x10*M.x21*M.x33 + M.x02*M.x11*M.x23*M.x30 + M.x02*M.x13*M.x20*M.x31
    - (M.x02*M.x10*M.x23*M.x31 + M.x02*M.x11*M.x20*M.x33 + M.x02*M.x13*M.x21*M.x30)
    + M.x03*M.x10*M.x22*M.x31 + M.x03*M.x11*M.x20*M.x32 + M.x03*M.x12*M.x21*M.x30
    - (M.x03*M.x10*M.x21*M.x32 + M.x03*M.x11*M.x22*M.x30 + M.x03*M.x12*M.x20*M.x31)

/-- The member `trace() const`. -/
def trace [Add α] (M : SquareMatrix4 α) : Outcome α := do
  let a ← M.operator_call 0 0
  let b ← M.operator_call 1 1
  let c ← M.operator_call 2 2
  let d ← M.operator_call 3 3
  pure (a + b + c + d)

/-- The static member `identityMatrix()`; the literals `1.0` and `0.0` are
converted to `Scalar`. -/
def identityMatrix [Zero α] [One α] : SquareMatrix4 α :=
  SquareMatrix4.mk 1 0 0 0 0 1 0 0 0 0 1 0 0 0 0 1

/-- The member `doubleContraction(const SquareMatrix<Scalar,4> &mat2) const`. -/
def doubleContraction [Zero α] [Add α] [Mul α] (M mat2 : SquareMatrix4 α) : Outcome α :=
  forLoop2 (fun i j result => do
    let a ← M.operator_call i j
    let b ← mat2.operator_call i j
    pure (result + a * b)) 0

/-- The member `operator* (const Vector<Scalar,4> &vec) const`. -/
def operator_mul_vec [Zero α] [Add α] [Mul α] (M : SquareMatrix4 α) (vec : Vector4 α) :
    Outcome (Vector4 α) :=
  forLoop2 (fun i j result => do
    let a ← M.operator_call i j
    let b ← vec.operator_index j
    let r ← result.operator_index i
    result.operator_index_assign i (r + a * b)) (Vector4.fill 0)

/-- The member `operator/ (Scalar scale) const`.  The guard compares with
`std::numeric_limits<Scalar>::epsilon()`; each element is then divided by `scale`
with the scalar kind's `/`. -/
def operator_div [Zero α] [Neg α] [LT α] [DecidableRel (fun a b : α => a < b)] [Div α]
    [DecidableEq α] (limits : ScalarLimits α) (M : SquareMatrix4 α) (scale : α) :
    Run (SquareMatrix4 α) :=
  if abs scale < limits.epsilon then
    Except.error (Failure.exited "Matrix Divide by zero error!\n")
  else do
    let result ← runLoop2 (fun i j (result : LocalArray α) => do
      let a ← liftOutcome (M.operator_call i j)
      let q ← scalar_div limits a scale
      pure (Function.update result (i * 4 + j) q)) (fun _ => 0)
    pure (ofLocalArray result)

/-- The member `operator/= (Scalar scale)`: the matrix passed in is `*this`
before the call, the matrix returned is `*this` after it. -/
def operator_div_assign [Zero α] [Neg α] [LT α] [DecidableRel (fun a b : α => a < b)] [Div α]
    [DecidableEq α] (limits : ScalarLimits α) (M : SquareMatrix4 α) (scale : α) :
    Run (SquareMatrix4 α) :=
  if abs scale < limits.epsilon then
    Except.error (Failure.exited "Matrix Divide by zero error!\n")
  else
    runLoop2 (fun i j self => do
      let a ← liftOutcome (self.operator_call i j)
      let q ← scalar_div limits a scale
      liftOutcome (self.operator_call_assign i j q)) M

/-- The member `inverse() const`, built-in branch: the exact test `det==0`,
then the sixteen signed 3x3 determinants `x00 .. x33` read straight from `data_`,
returned transposed and divided by `det`. -/
def inverse [Zero α] [Add α] [Sub α] [Mul α] [Neg α] [Div α] [DecidableEq α]
    (M : SquareMatrix4 α) : Outcome (SquareMatrix4 α) :=
  let det := M.determinant
  if det = 0 then
    Except.error "Matrix not invertible!\n"
  else
    let x00 := (SquareMatrix3.mk M.x11 M.x12 M.x13 M.x21 M.x22 M.x23 M.x31 M.x32 M.x33).determinant
    let x01 := - (SquareMatrix3.mk M.x10 M.x12 M.x13 M.x20 M.x22 M.x23 M.x30 M.x32 M.x33).determinant
    let x02 := (SquareMatrix3.mk M.x10 M.x11 M.x13 M.x20 M.x21 M.x23 M.x30 M.x31 M.x33).determinant
    let x03 := - (SquareMatrix3.mk M.x10 M.x11 M.x12 M.x20 M.x21 M.x22 M.x30 M.x31 M.x32).determinant
    let x10 := - (SquareMatrix3.mk M.x01 M.x02 M.x03 M.x21 M.x22 M.x23 M.x31 M.x32 M.x33).determinant
    let x11 := (SquareMatrix3.mk M.x00 M.x02 M.x03 M.x20 M.x22 M.x23 M.x30 M.x32 M.x33).determinant
    let x12 := - (SquareMatrix3.mk M.x00 M.x01 M.x03 M.x20 M.x21 M.x23 M.x30 M.x31 M.x33).determinant
    let x13 := (SquareMatrix3.mk M.x00 M.x01 M.x02 M.x20 M.x21 M.x22 M.x30 M.x31 M.x32).determinant
    let x20 := (SquareMatrix3.mk M.x01 M.x02 M.x03 M.x11 M.x12 M.x13 M.x31 M.x32 M.x33).determinant
    let x21 := - (SquareMatrix3.mk M.x00 M.x02 M.x03 M.x10 M.x12 M.x13 M.x30 M.x32 M.x33).determinant
    let x22 := (SquareMatrix3.mk M.x00 M.x01 M.x03 M.x10 M.x11 M.x13 M.x30 M.x31 M.x33).determinant
    let x23 := - (SquareMatrix3.mk M.x00 M.x01 M.x02 M.x10 M.x11 M.x12 M.x30 M.x31 M.x32).determinant
    let x30 := - (SquareMatrix3.mk M.x01 M.x02 M.x03 M.x11 M.x12 M.x13 M.x21 M.x22 M.x23).determinant
    let x31 := (SquareMatrix3.mk M.x00 M.x02 M.x03 M.x10 M.x12 M.x13 M.x20 M.x22 M.x23).determinant
    let x32 := - (SquareMatrix3.mk M.x00 M.x01 M.x03 M.x10 M.x11 M.x13 M.x20 M.x21 M.x23).determinant
    let x33 := (SquareMatrix3.mk M.x00 M.x01 M.x02 M.x10 M.x11 M.x12 M.x20 M.x21 M.x22).determinant
    Except.ok (SquareMatrix4.mk (x00/det) (x10/det) (x20/det) (x30/det)
      (x01/det) (x11/det) (x21/det) (x31/det)
      (x02/det) (x12/det) (x22/det) (x32/det)
      (x03/det) (x13/det) (x23/det) (x33/det))

end SquareMatrix4

end Physika

namespace Physika

namespace SquareMatrix4

variable {α : Type}

/-! ## Specification-side definitions -/

/-- The 3x3 submatrix of the spec's minor: `M` with row `r` and column `c`
deleted, the remaining rows and columns kept in order. -/
def minor (M : SquareMatrix4 α) (r c : Fin 4) : SquareMatrix3 α :=
  SquareMatrix3.mk
    (M.data_ (r.succAbove 0) (c.succAbove 0)) (M.data_ (r.succAbove 0) (c.succAbove 1))
    (M.data_ (r.succAbove 0) (c.succAbove 2))
    (M.data_ (r.succAbove 1) (c.succAbove 0)) (M.data_ (r.succAbove 1) (c.succAbove 1))
    (M.data_ (r.succAbove 1) (c.succAbove 2))
    (M.data_ (r.succAbove 2) (c.succAbove 0)) (M.data_ (r.succAbove 2) (c.succAbove 1))
    (M.data_ (r.succAbove 2) (c.succAbove 2))

/-- The spec's `minor_det(r,c)`: the determinant of the submatrix obtained by
deleting row `r` and column `c`. -/
def minor_det [Add α] [Sub α] [Mul α] (M : SquareMatrix4 α) (r c : Fin 4) : α :=
  (M.minor r c).determinant

/-- The spec's `cofactor(r,c) = (-1)^(r+c) · minor_det(r,c)`. -/
def cofactor [Ring α] (M : SquareMatrix4 α) (r c : Fin 4) : α :=
  (-1) ^ (r.val + c.val) * M.minor_det r c

/-- The spec's determinant: the cofactor expansion along the first row,
`Σ_j (-1)^j · M(0,j) · minor_det(0,j)`. -/
def determinant_cofactor_expansion [Ring α] (M : SquareMatrix4 α) : α :=
  ∑ j : Fin 4, (-1) ^ j.val * M.data_ 0 j * M.minor_det 0 j

/-- A rational matrix with determinant `-119`, used to instantiate the
theorems that assume an invertible matrix. -/
def sampleInvertible : SquareMatrix4 ℚ :=
  SquareMatrix4.mk 1 2 0 0 0 1 3 0 0 0 1 4 5 0 0 1

/-- The matrix of the spec's concrete scenario, rows `(2,0,0,0)`, `(0,2,0,0)`,
`(0,0,2,0)`, `(0,0,0,2)`, over the rationals. -/
def scenarioTwoDiagonal : SquareMatrix4 ℚ :=
  SquareMatrix4.mk 2 0 0 0 0 2 0 0 0 0 2 0 0 0 0 2

/-- The limits of the signed integer kinds: `epsilon()` is `0` and `/` is the
integer division. -/
def integerLimits : ScalarLimits ℤ :=
  ScalarLimits.mk 0 true

/-- The comparison `a != b` of a floating kind on values that are either a
number `some q` or a NaN `none`: a NaN is unequal to every value, itself
included; two numbers are unequal when they differ. -/
def float_ne (a b : Option ℚ) : Bool :=
  match a, b with
  | some x, some y => decide (x ≠ y)
  | _, _ => true

/-- A matrix of a floating kind holding a NaN at `(0,0)` and zeros elsewhere. -/
def sampleNaN : SquareMatrix4 (Option ℚ) :=
  SquareMatrix4.mk none (some 0) (some 0) (some 0) (some 0) (some 0) (some 0) (some 0)
    (some 0) (some 0) (some 0) (some 0) (some 0) (some 0) (some 0) (some 0)

/-! ## Evaluation of the loops -/

/-- The triple loop of the matrix product, run to completion. -/
theorem operator_mul_eval [Zero α] [Add α] [Mul α] (A B : SquareMatrix4 α) :
    A.operator_mul B = Except.ok (SquareMatrix4.mk
      (0 + A.x00*B.x00 + A.x01*B.x10 + A.x02*B.x20 + A.x03*B.x30)
      (0 + A.x00*B.x01 + A.x01*B.x11 + A.x02*B.x21 + A.x03*B.x31)
      (0 + A.x00*B.x02 + A.x01*B.x12 + A.x02*B.x22 + A.x03*B.x32)
      (0 + A.x00*B.x03 + A.x01*B.x13 + A.x02*B.x23 + A.x03*B.x33)
      (0 + A.x10*B.x00 + A.x11*B.x10 + A.x12*B.x20 + A.x13*B.x30)
      (0 + A.x10*B.x01 + A.x11*B.x11 + A.x12*B.x21 + A.x13*B.x31)
      (0 + A.x10*B.x02 + A.x11*B.x12 + A.x12*B.x22 + A.x13*B.x32)
      (0 + A.x10*B.x03 + A.x11*B.x13 + A.x12*B.x23 + A.x13*B.x33)
      (0 + A.x20*B.x00 + A.x21*B.x10 + A.x22*B.x20 + A.x23*B.x30)
      (0 + A.x20*B.x01 + A.x21*B.x11 + A.x22*B.x21 + A.x23*B.x31)
      (0 + A.x20*B.x02 + A.x21*B.x12 + A.x22*B.x22 + A.x23*B.x32)
      (0 + A.x20*B.x03 + A.x21*B.x13 + A.x22*B.x23 + A.x23*B.x33)
      (0 + A.x30*B.x00 + A.x31*B.x10 + A.x32*B.x20 + A.x33*B.x30)
      (0 + A.x30*B.x01 + A.x31*B.x11 + A.x32*B.x21 + A.x33*B.x31)
      (0 + A.x30*B.x02 + A.x31*B.x12 + A.x32*B.x22 + A.x33*B.x32)
      (0 + A.x30*B.x03 + A.x31*B.x13 + A.x32*B.x23 + A.x33*B.x33)) :=
  rfl

/-- The elements read by the loops, subscript by subscript. -/
theorem data_subscript_eval (M : SquareMatrix4 α) :
    M.data_ (subscript 0) (subscript 0) = M.x00 ∧
    M.data_ (subscript 0) (subscript 1) = M.x01 ∧
    M.data_ (subscript 0) (subscript 2) = M.x02 ∧
    M.data_ (subscript 0) (subscript 3) = M.x03 ∧
    M.data_ (subscript 1) (subscript 0) = M.x10 ∧
    M.data_ (subscript 1) (subscript 1) = M.x11 ∧
    M.data_ (subscript 1) (subscript 2) = M.x12 ∧
    M.data_ (subscript 1) (subscript 3) = M.x13 ∧
    M.data_ (subscript 2) (subscript 0) = M.x20 ∧
    M.data_ (subscript 2) (subscript 1) = M.x21 ∧
    M.data_ (subscript 2) (subscript 2) = M.x22 ∧
    M.data_ (subscript 2) (subscript 3) = M.x23 ∧
    M.data_ (subscript 3) (subscript 0) = M.x30 ∧
    M.data_ (subscript 3) (subscript 1) = M.x31 ∧
    M.data_ (subscript 3) (subscript 2) = M.x32 ∧
    M.data_ (subscript 3) (subscript 3) = M.x33 :=
  ⟨rfl, rfl, rfl, rfl, rfl, rfl, rfl, rfl, rfl, rfl, rfl, rfl, rfl, rfl, rfl, rfl⟩

/-- The loops of `operator==` return `false` at the first pair of elements that
the scalar comparison finds unequal and `true` when there is none. -/
theorem operator_eq_by_eval (scalar_ne : α → α → Bool) (A B : SquareMatrix4 α) :
    A.operator_eq_by scalar_ne B = Except.ok (!(
      scalar_ne A.x00 B.x00 ||
      scalar_ne A.x01 B.x01 ||
      scalar_ne A.x02 B.x02 ||
      scalar_ne A.x03 B.x03 ||
      scalar_ne A.x10 B.x10 ||
      scalar_ne A.x11 B.x11 ||
      scalar_ne A.x12 B.x12 ||
      scalar_ne A.x13 B.x13 ||
      scalar_ne A.x20 B.x20 ||
      scalar_ne A.x21 B.x21 ||
      scalar_ne A.x22 B.x22 ||
      scalar_ne A.x23 B.x23 ||
      scalar_ne A.x30 B.x30 ||
      scalar_ne A.x31 B.x31 ||
      scalar_ne A.x32 B.x32 ||
      scalar_ne A.x33 B.x33)) := by
  cases h00 : scalar_ne A.x00 B.x00
  swap
  · simp [operator_eq_by, forLoop2, forLoop, loopRange, List.foldlM, operator_call, index_valid,
        bind, Except.bind, pure, Except.pure, data_subscript_eval, h00]
  cases h01 : scalar_ne A.x01 B.x01
  swap
  · simp [operator_eq_by, forLoop2, forLoop, loopRange, List.foldlM, operator_call, index_valid,
        bind, Except.bind, pure, Except.pure, data_subscript_eval, h00, h01]
  cases h02 : scalar_ne A.x02 B.x02
  swap
  · simp [operator_eq_by, forLoop2, forLoop, loopRange, List.foldlM, operator_call, index_valid,
        bind, Except.bind, pure, Except.pure, data_subscript_eval, h00, h01, h02]
  cases h03 : scalar_ne A.x03 B.x03
  swap
  · simp [operator_eq_by, forLoop2, forLoop, loopRange, List.foldlM, operator_call, index_valid,
        bind, Except.bind, pure, Except.pure, data_subscript_eval, h00, h01, h02, h03]
  cases h10 : scalar_ne A.x10 B.x10
  swap
  · simp [operator_eq_by, forLoop2, forLoop, loopRange, List.foldlM, operator_call, index_valid,
        bind, Except.bind, pure, Except.pure, data_subscript_eval, h00, h01, h02, h03, h10]
  cases h11 : scalar_ne A.x11 B.x11
  swap
  · simp [operator_eq_by, forLoop2, forLoop, loopRange, List.foldlM, operator_call, index_valid,
        bind, Except.bind, pure, Except.pure, data_subscript_eval, h00, h01, h02, h03, h10, h11]
  cases h12 : scalar_ne A.x12 B.x12
  swap
  · simp [operator_eq_by, forLoop2, forLoop, loopRange, List.foldlM, operator_call, index_valid,
        bind, Except.bind, pure, Except.pure, data_subscript_eval, h00, h01, h02, h03, h10, h11, h12]
  cases h13 : scalar_ne A.x13 B.x13
  swap
  · simp [operator_eq_by, forLoop2, forLoop, loopRange, List.foldlM, operator_call, index_valid,
        bind, Except.bind, pure, Except.pure, data_subscript_eval, h00, h01, h02, h03, h10, h11, h12, h13]
  cases h20 : scalar_ne A.x20 B.x20
  swap
  · simp [operator_eq_by, forLoop2, forLoop, loopRange, List.foldlM, operator_call, index_valid,
        bind, Except.bind, pure, Except.pure, data_subscript_eval, h00, h01, h02, h03, h10, h11, h12, h13, h20]
  cases h21 : scalar_ne A.x21 B.x21
  swap
  · simp [operator_eq_by, forLoop2, forLoop, loopRange, List.foldlM, operator_call, index_valid,
        bind, Except.bind, pure, Except.pure, data_subscript_eval, h00, h01, h02, h03, h10, h11, h12, h13, h20, h21]
  cases h22 : scalar_ne A.x22 B.x22
  swap
  · simp [operator_eq_by, forLoop2, forLoop, loopRange, List.foldlM, operator_call, index_valid,
        bind, Except.bind, pure, Except.pure, data_subscript_eval, h00, h01, h02, h03, h10, h11, h12, h13, h20, h21, h22]
  cases h23 : scalar_ne A.x23 B.x23
  swap
  · simp [operator_eq_by, forLoop2, forLoop, loopRange, List.foldlM, operator_call, index_valid,
        bind, Except.bind, pure, Except.pure, data_subscript_eval, h00, h01, h02, h03, h10, h11, h12, h13, h20, h21, h22, h23]
  cases h30 : scalar_ne A.x30 B.x30
  swap
  · simp [operator_eq_by, forLoop2, forLoop, loopRange, List.foldlM, operator_call, index_valid,
        bind, Except.bind, pure, Except.pure, data_subscript_eval, h00, h01, h02, h03, h10, h11, h12, h13, h20, h21, h22, h23, h30]
  cases h31 : scalar_ne A.x31 B.x31
  swap
  · simp [operator_eq_by, forLoop2, forLoop, loopRange, List.foldlM, operator_call, index_valid,
        bind, Except.bind, pure, Except.pure, data_subscript_eval, h00, h01, h02, h03, h10, h11, h12, h13, h20, h21, h22, h23, h30, h31]
  cases h32 : scalar_ne A.x32 B.x32
  swap
  · simp [operator_eq_by, forLoop2, forLoop, loopRange, List.foldlM, operator_call, index_valid,
        bind, Except.bind, pure, Except.pure, data_subscript_eval, h00, h01, h02, h03, h10, h11, h12, h13, h20, h21, h22, h23, h30, h31, h32]
  cases h33 : scalar_ne A.x33 B.x33
  swap
  · simp [operator_eq_by, forLoop2, forLoop, loopRange, List.foldlM, operator_call, index_valid,
        bind, Except.bind, pure, Except.pure, data_subscript_eval, h00, h01, h02, h03, h10, h11, h12, h13, h20, h21, h22, h23, h30, h31, h32, h33]
  simp [operator_eq_by, forLoop2, forLoop, loopRange, List.foldlM, operator_call, index_valid,
        bind, Except.bind, pure, Except.pure, data_subscript_eval, h00, h01, h02, h03, h10, h11, h12, h13, h20, h21, h22, h23, h30, h31, h32, h33]

/-- Comparing a matrix with itself never takes the `return false` exit. -/
theorem operator_eq_self [DecidableEq α] (A : SquareMatrix4 α) :
    A.operator_eq A = Except.ok true := by
  unfold operator_eq
  rw [operator_eq_by_eval]
  simp

/-- The loops of `operator==` return `false` at the first differing pair of
elements and `true` when there is none. -/
theorem operator_eq_eval [DecidableEq α] (A B : SquareMatrix4 α) :
    A.operator_eq B = Except.ok (decide (A = B)) := by
  unfold operator_eq
  rw [operator_eq_by_eval]
  cases A
  cases B
  simp [Bool.and_assoc]

/-- A valid index pair reads the stored element. -/
theorem operator_call_fin (M : SquareMatrix4 α) (i j : Fin 4) :
    M.operator_call (i.val : Int) (j.val : Int) = Except.ok (M.data_ i j) := by
  fin_cases i <;> fin_cases j <;> rfl

/-! ## Determinant and inverse -/

/-- The sixteen submatrices of the minors, written out element by element. -/
theorem minor_eval (M : SquareMatrix4 α) :
    M.minor 0 0 = SquareMatrix3.mk M.x11 M.x12 M.x13 M.x21 M.x22 M.x23 M.x31 M.x32 M.x33 ∧
    M.minor 0 1 = SquareMatrix3.mk M.x10 M.x12 M.x13 M.x20 M.x22 M.x23 M.x30 M.x32 M.x33 ∧
    M.minor 0 2 = SquareMatrix3.mk M.x10 M.x11 M.x13 M.x20 M.x21 M.x23 M.x30 M.x31 M.x33 ∧
    M.minor 0 3 = SquareMatrix3.mk M.x10 M.x11 M.x12 M.x20 M.x21 M.x22 M.x30 M.x31 M.x32 ∧
    M.minor 1 0 = SquareMatrix3.mk M.x01 M.x02 M.x03 M.x21 M.x22 M.x23 M.x31 M.x32 M.x33 ∧
    M.minor 1 1 = SquareMatrix3.mk M.x00 M.x02 M.x03 M.x20 M.x22 M.x23 M.x30 M.x32 M.x33 ∧
    M.minor 1 2 = SquareMatrix3.mk M.x00 M.x01 M.x03 M.x20 M.x21 M.x23 M.x30 M.x31 M.x33 ∧
    M.minor 1 3 = SquareMatrix3.mk M.x00 M.x01 M.x02 M.x20 M.x21 M.x22 M.x30 M.x31 M.x32 ∧
    M.minor 2 0 = SquareMatrix3.mk M.x01 M.x02 M.x03 M.x11 M.x12 M.x13 M.x31 M.x32 M.x33 ∧
    M.minor 2 1 = SquareMatrix3.mk M.x00 M.x02 M.x03 M.x10 M.x12 M.x13 M.x30 M.x32 M.x33 ∧
    M.minor 2 2 = SquareMatrix3.mk M.x00 M.x01 M.x03 M.x10 M.x11 M.x13 M.x30 M.x31 M.x33 ∧
    M.minor 2 3 = SquareMatrix3.mk M.x00 M.x01 M.x02 M.x10 M.x11 M.x12 M.x30 M.x31 M.x32 ∧
    M.minor 3 0 = SquareMatrix3.mk M.x01 M.x02 M.x03 M.x11 M.x12 M.x13 M.x21 M.x22 M.x23 ∧
    M.minor 3 1 = SquareMatrix3.mk M.x00 M.x02 M.x03 M.x10 M.x12 M.x13 M.x20 M.x22 M.x23 ∧
    M.minor 3 2 = SquareMatrix3.mk M.x00 M.x01 M.x03 M.x10 M.x11 M.x13 M.x20 M.x21 M.x23 ∧
    M.minor 3 3 = SquareMatrix3.mk M.x00 M.x01 M.x02 M.x10 M.x11 M.x12 M.x20 M.x21 M.x22 :=
  ⟨rfl, rfl, rfl, rfl, rfl, rfl, rfl, rfl, rfl, rfl, rfl, rfl, rfl, rfl, rfl, rfl⟩

/-- Four products by quotients over a common divisor, accumulated from zero. -/
theorem accumulate_div [Field α] (a b c d m0 m1 m2 m3 det : α) :
    0 + a * (m0 / det) + b * (m1 / det) + c * (m2 / det) + d * (m3 / det)
      = (a * m0 + b * m1 + c * m2 + d * m3) / det := by
  ring

/-- The sign of a cofactor at an even index sum. -/
theorem cofactor_of_even [Ring α] (M : SquareMatrix4 α) (r c : Fin 4)
    (h : (r.val + c.val) % 2 = 0) : M.cofactor r c = (M.minor r c).determinant := by
  have he : Even (r.val + c.val) := Nat.even_iff.mpr h
  simp [cofactor, minor_det, he.neg_one_pow]

/-- The sign of a cofactor at an odd index sum. -/
theorem cofactor_of_odd [Ring α] (M : SquareMatrix4 α) (r c : Fin 4)
    (h : (r.val + c.val) % 2 = 1) : M.cofactor r c = -(M.minor r c).determinant := by
  have ho : Odd (r.val + c.val) := Nat.odd_iff.mpr h
  simp [cofactor, minor_det, ho.neg_one_pow]

/-- The first-row cofactor expansion with its four minors written out. -/
theorem determinant_cofactor_expansion_eval [Ring α] (M : SquareMatrix4 α) :
    M.determinant_cofactor_expansion =
      (-1) ^ 0 * M.x00 *
          (SquareMatrix3.mk M.x11 M.x12 M.x13 M.x21 M.x22 M.x23 M.x31 M.x32 M.x33).determinant
        + (-1) ^ 1 * M.x01 *
          (SquareMatrix3.mk M.x10 M.x12 M.x13 M.x20 M.x22 M.x23 M.x30 M.x32 M.x33).determinant
        + (-1) ^ 2 * M.x02 *
          (SquareMatrix3.mk M.x10 M.x11 M.x13 M.x20 M.x21 M.x23 M.x30 M.x31 M.x33).determinant
        + (-1) ^ 3 * M.x03 *
          (SquareMatrix3.mk M.x10 M.x11 M.x12 M.x20 M.x21 M.x22 M.x30 M.x31 M.x32).determinant := by
  simp only [determinant_cofactor_expansion, Fin.sum_univ_four]
  rfl

/-- The built-in inverse of a matrix with non-zero determinant, written out. -/
theorem inverse_of_ne_zero [Zero α] [Add α] [Sub α] [Mul α] [Neg α] [Div α] [DecidableEq α]
    (M : SquareMatrix4 α) (h : M.determinant ≠ 0) :
    M.inverse = Except.ok (SquareMatrix4.mk
      ((M.minor 0 0).determinant / M.determinant) (-(M.minor 1 0).determinant / M.determinant)
      ((M.minor 2 0).determinant / M.determinant) (-(M.minor 3 0).determinant / M.determinant)
      (-(M.minor 0 1).determinant / M.determinant) ((M.minor 1 1).determinant / M.determinant)
      (-(M.minor 2 1).determinant / M.determinant) ((M.minor 3 1).determinant / M.determinant)
      ((M.minor 0 2).determinant / M.determinant) (-(M.minor 1 2).determinant / M.determinant)
      ((M.minor 2 2).determinant / M.determinant) (-(M.minor 3 2).determinant / M.determinant)
      (-(M.minor 0 3).determinant / M.determinant) ((M.minor 1 3).determinant / M.determinant)
      (-(M.minor 2 3).determinant / M.determinant) ((M.minor 3 3).determinant / M.determinant)) := by
  unfold inverse
  exact if_neg h

/-- The built-in inverse of a matrix with zero determinant. -/
theorem inverse_of_eq_zero [Zero α] [Add α] [Sub α] [Mul α] [Neg α] [Div α] [DecidableEq α]
    (M : SquareMatrix4 α) (h : M.determinant = 0) :
    M.inverse = Except.error "Matrix not invertible!\n" := by
  unfold inverse
  exact if_pos h

/-- C2: over a commutative ring, the 24-term polynomial returned by the built-in
`determinant()` equals the cofactor expansion along the first row,
`Σ_j (-1)^j · M(0,j) · minor_det(0,j)`, with `minor_det(0,j)` the 3x3 determinant
of `M` without row 0 and column `j`. -/
theorem determinant_eq_cofactor_expansion [CommRing α] (M : SquareMatrix4 α) :
    M.determinant = M.determinant_cofactor_expansion := by
  rw [determinant_cofactor_expansion_eval]
  simp only [SquareMatrix3.determinant, SquareMatrix2.determinant, determinant]
  ring

/-- C3: over a field, when `determinant()` is non-zero the built-in `inverse()`
returns a matrix whose element `(i,j)` is `cofactor(j,i) / determinant()`, the
transposed cofactor matrix divided by the determinant. -/
theorem inverse_elem_eq_cofactor_div [Field α] [DecidableEq α] (M : SquareMatrix4 α)
    (h : M.determinant ≠ 0) :
    ∃ R, M.inverse = Except.ok R ∧
      ∀ i j : Fin 4, R.operator_call (i.val : Int) (j.val : Int)
        = Except.ok (M.cofactor j i / M.determinant) := by
  refine ⟨_, inverse_of_ne_zero M h, ?_⟩
  intro i j
  rw [operator_call_fin]
  fin_cases i <;> fin_cases j <;>
    first
    | (refine congrArg (fun x => Except.ok (x / M.determinant)) (cofactor_of_even M _ _ ?_).symm
       rfl)
    | (refine congrArg (fun x => Except.ok (x / M.determinant)) (cofactor_of_odd M _ _ ?_).symm
       rfl)

/-- The determinant of the sample matrix. -/
theorem sampleInvertible_determinant : sampleInvertible.determinant = -119 := by
  norm_num [sampleInvertible, determinant]

/-- Witness for C3 at the sample rational matrix. -/
theorem inverse_elem_eq_cofactor_div_witness :
    sampleInvertible.determinant ≠ 0 ∧
    ∃ R, sampleInvertible.inverse = Except.ok R ∧
      ∀ i j : Fin 4, R.operator_call (i.val : Int) (j.val : Int)
        = Except.ok (sampleInvertible.cofactor j i / sampleInvertible.determinant) :=
  ⟨by rw [sampleInvertible_determinant]; norm_num,
   inverse_elem_eq_cofactor_div sampleInvertible
     (by rw [sampleInvertible_determinant]; norm_num)⟩

/-- C1: over a field (the rationals in particular), when `determinant()` is
non-zero the built-in `inverse()` returns a matrix `R`, the product `A * R`
returns a matrix `P`, `P == identityMatrix()` evaluates to true, and `P` is the
identity matrix element for element. -/
theorem mul_inverse_eq_identity [Field α] [DecidableEq α] (A : SquareMatrix4 α)
    (h : A.determinant ≠ 0) :
    ∃ R P, A.inverse = Except.ok R ∧ A.operator_mul R = Except.ok P ∧
      P.operator_eq identityMatrix = Except.ok true ∧
      ∀ i j : Fin 4, P.data_ i j = (identityMatrix : SquareMatrix4 α).data_ i j := by
  have hP : (SquareMatrix4.mk
      (0 + A.x00 * ((A.minor 0 0).determinant / A.determinant)
        + A.x01 * (-(A.minor 0 1).determinant / A.determinant)
        + A.x02 * ((A.minor 0 2).determinant / A.determinant)
        + A.x03 * (-(A.minor 0 3).determinant / A.determinant))
      (0 + A.x00 * (-(A.minor 1 0).determinant / A.determinant)
        + A.x01 * ((A.minor 1 1).determinant / A.determinant)
        + A.x02 * (-(A.minor 1 2).determinant / A.determinant)
        + A.x03 * ((A.minor 1 3).determinant / A.determinant))
      (0 + A.x00 * ((A.minor 2 0).determinant / A.determinant)
        + A.x01 * (-(A.minor 2 1).determinant / A.determinant)
        + A.x02 * ((A.minor 2 2).determinant / A.determinant)
        + A.x03 * (-(A.minor 2 3).determinant / A.determinant))
      (0 + A.x00 * (-(A.minor 3 0).determinant / A.determinant)
        + A.x01 * ((A.minor 3 1).determinant / A.determinant)
        + A.x02 * (-(A.minor 3 2).determinant / A.determinant)
        + A.x03 * ((A.minor 3 3).determinant / A.determinant))
      (0 + A.x10 * ((A.minor 0 0).determinant / A.determinant)
        + A.x11 * (-(A.minor 0 1).determinant / A.determinant)
        + A.x12 * ((A.minor 0 2).determinant / A.determinant)
        + A.x13 * (-(A.minor 0 3).determinant / A.determinant))
      (0 + A.x10 * (-(A.minor 1 0).determinant / A.determinant)
        + A.x11 * ((A.minor 1 1).determinant / A.determinant)
        + A.x12 * (-(A.minor 1 2).determinant / A.determinant)
        + A.x13 * ((A.minor 1 3).determinant / A.determinant))
      (0 + A.x10 * ((A.minor 2 0).determinant / A.determinant)
        + A.x11 * (-(A.minor 2 1).determinant / A.determinant)
        + A.x12 * ((A.minor 2 2).determinant / A.determinant)
        + A.x13 * (-(A.minor 2 3).determinant / A.determinant))
      (0 + A.x10 * (-(A.minor 3 0).determinant / A.determinant)
        + A.x11 * ((A.minor 3 1).determinant / A.determinant)
        + A.x12 * (-(A.minor 3 2).determinant / A.determinant)
        + A.x13 * ((A.minor 3 3).determinant / A.determinant))
      (0 + A.x20 * ((A.minor 0 0).determinant / A.determinant)
        + A.x21 * (-(A.minor 0 1).determinant / A.determinant)
        + A.x22 * ((A.minor 0 2).determinant / A.determinant)
        + A.x23 * (-(A.minor 0 3).determinant / A.determinant))
      (0 + A.x20 * (-(A.minor 1 0).determinant / A.determinant)
        + A.x21 * ((A.minor 1 1).determinant / A.determinant)
        + A.x22 * (-(A.minor 1 2).determinant / A.determinant)
        + A.x23 * ((A.minor 1 3).determinant / A.determinant))
      (0 + A.x20 * ((A.minor 2 0).determinant / A.determinant)
        + A.x21 * (-(A.minor 2 1).determinant / A.determinant)
        + A.x22 * ((A.minor 2 2).determinant / A.determinant)
        + A.x23 * (-(A.minor 2 3).determinant / A.determinant))
      (0 + A.x20 * (-(A.minor 3 0).determinant / A.determinant)
        + A.x21 * ((A.minor 3 1).determinant / A.determinant)
        + A.x22 * (-(A.minor 3 2).determinant / A.determinant)
        + A.x23 * ((A.minor 3 3).determinant / A.determinant))
      (0 + A.x30 * ((A.minor 0 0).determinant / A.determinant)
        + A.x31 * (-(A.minor 0 1).determinant / A.determinant)
        + A.x32 * ((A.minor 0 2).determinant / A.determinant)
        + A.x33 * (-(A.minor 0 3).determinant / A.determinant))
      (0 + A.x30 * (-(A.minor 1 0).determinant / A.determinant)
        + A.x31 * ((A.minor 1 1).determinant / A.determinant)
        + A.x32 * (-(A.minor 1 2).determinant / A.determinant)
        + A.x33 * ((A.minor 1 3).determinant / A.determinant))
      (0 + A.x30 * ((A.minor 2 0).determinant / A.determinant)
        + A.x31 * (-(A.minor 2 1).determinant / A.determinant)
        + A.x32 * ((A.minor 2 2).determinant / A.determinant)
        + A.x33 * (-(A.minor 2 3).determinant / A.determinant))
      (0 + A.x30 * (-(A.minor 3 0).determinant / A.determinant)
        + A.x31 * ((A.minor 3 1).determinant / A.determinant)
        + A.x32 * (-(A.minor 3 2).determinant / A.determinant)
        + A.x33 * ((A.minor 3 3).determinant / A.determinant)))
      = (identityMatrix : SquareMatrix4 α) := by
    simp only [identityMatrix, SquareMatrix4.mk.injEq]
    refine ⟨?_, ?_, ?_, ?_, ?_, ?_, ?_, ?_, ?_, ?_, ?_, ?_, ?_, ?_, ?_, ?_⟩ <;>
      (rw [accumulate_div, div_eq_iff h]
       simp only [determinant, minor_eval, SquareMatrix3.determinant,
         SquareMatrix2.determinant]
       ring)
  refine ⟨_, _, inverse_of_ne_zero A h, operator_mul_eval _ _, ?_, ?_⟩
  · rw [hP]
    exact operator_eq_self _
  · intro i j
    rw [hP]

/-- Witness for C1 at the sample rational matrix. -/
theorem mul_inverse_eq_identity_witness :
    sampleInvertible.determinant ≠ 0 ∧
    ∃ R P, sampleInvertible.inverse = Except.ok R ∧
      sampleInvertible.operator_mul R = Except.ok P ∧
      P.operator_eq identityMatrix = Except.ok true ∧
      ∀ i j : Fin 4, P.data_ i j = (identityMatrix : SquareMatrix4 ℚ).data_ i j :=
  ⟨by rw [sampleInvertible_determinant]; norm_num,
   mul_inverse_eq_identity sampleInvertible
     (by rw [sampleInvertible_determinant]; norm_num)⟩

/-- A scalar division by an integer zero is the undefined outcome. -/
theorem scalar_div_of_undefined [Zero α] [Div α] [DecidableEq α] (limits : ScalarLimits α)
    (a b : α) (hz : limits.is_integer = true ∧ b = 0) :
    scalar_div limits a b = Except.error Failure.division_by_zero := by
  unfold scalar_div
  exact if_pos hz

/-- When the guard of `operator/` does not fire and the divisor is an integer
zero, the first element division is the undefined one. -/
theorem operator_div_of_undefined [Zero α] [Neg α] [LT α] [DecidableRel (fun a b : α => a < b)]
    [Div α] [DecidableEq α]
    (limits : ScalarLimits α) (M : SquareMatrix4 α) (scale : α)
    (h : ¬ Physika.abs scale < limits.epsilon)
    (hz : limits.is_integer = true ∧ scale = 0) :
    M.operator_div limits scale = Except.error Failure.division_by_zero := by
  unfold operator_div
  rw [if_neg h]
  simp only [scalar_div_of_undefined limits _ scale hz]
  rfl

/-- When the guard of `operator/=` does not fire and the divisor is an integer
zero, the first element division is the undefined one and nothing is stored. -/
theorem operator_div_assign_of_undefined [Zero α] [Neg α] [LT α] [DecidableRel (fun a b : α => a < b)]
    [Div α] [DecidableEq α]
    (limits : ScalarLimits α) (M : SquareMatrix4 α) (scale : α)
    (h : ¬ Physika.abs scale < limits.epsilon)
    (hz : limits.is_integer = true ∧ scale = 0) :
    M.operator_div_assign limits scale = Except.error Failure.division_by_zero := by
  unfold operator_div_assign
  rw [if_neg h]
  simp only [scalar_div_of_undefined limits _ scale hz]
  rfl

/-- C5 (the code at the failing input): for the signed integer kinds `epsilon()`
is `0`, so for the divisor `0` the guard `abs(scale) < epsilon()` is false: neither
`operator/` nor `operator/=` takes the exit that writes the diagnostic, and both
run on into the element-wise integer division by zero, which is undefined and
returns or stores no matrix. -/
theorem operator_div_int_zero_not_guarded (A : SquareMatrix4 ℤ) :
    A.operator_div integerLimits 0 = Except.error Failure.division_by_zero ∧
    A.operator_div_assign integerLimits 0 = Except.error Failure.division_by_zero ∧
    A.operator_div integerLimits 0
      ≠ Except.error (Failure.exited "Matrix Divide by zero error!\n") ∧
    A.operator_div_assign integerLimits 0
      ≠ Except.error (Failure.exited "Matrix Divide by zero error!\n") := by
  have h : ¬ Physika.abs (0 : ℤ) < integerLimits.epsilon := by decide
  have hz : integerLimits.is_integer = true ∧ (0 : ℤ) = 0 := ⟨rfl, rfl⟩
  have h1 := operator_div_of_undefined integerLimits A 0 h hz
  have h2 := operator_div_assign_of_undefined integerLimits A 0 h hz
  refine ⟨h1, h2, ?_, ?_⟩
  · rw [h1]
    simp
  · rw [h2]
    simp

/-- The index test of `operator()` holds exactly for indices in `0..3`. -/
theorem index_valid_iff (i j : Int) :
    index_valid i j = true ↔ (0 ≤ i ∧ i < 4) ∧ (0 ≤ j ∧ j < 4) := by
  simp [index_valid]

/-- C7: `operator()(i,j)` exits if and only if `i` or `j` lies outside `0..3`,
in particular at `(4,0)` and `(-1,0)`; for `0 ≤ i < 4` and `0 ≤ j < 4` it returns
the argument number `4·i+j` of the full-element constructor that built the matrix.
An assignment through the non-const overload exits under the same condition. -/
theorem operator_call_spec (x00 x01 x02 x03 x10 x11 x12 x13 x20 x21 x22 x23 x30 x31 x32 x33 v : α) (i j : Int) :
    ((∃ msg, (SquareMatrix4.mk x00 x01 x02 x03 x10 x11 x12 x13 x20 x21 x22 x23 x30 x31 x32 x33).operator_call i j = Except.error msg)
        ↔ ¬ ((0 ≤ i ∧ i < 4) ∧ (0 ≤ j ∧ j < 4))) ∧
    ((∃ msg, (SquareMatrix4.mk x00 x01 x02 x03 x10 x11 x12 x13 x20 x21 x22 x23 x30 x31 x32 x33).operator_call_assign i j v = Except.error msg)
        ↔ ¬ ((0 ≤ i ∧ i < 4) ∧ (0 ≤ j ∧ j < 4))) ∧
    (SquareMatrix4.mk x00 x01 x02 x03 x10 x11 x12 x13 x20 x21 x22 x23 x30 x31 x32 x33).operator_call 4 0
        = Except.error "Matrix index out of range!\n" ∧
    (SquareMatrix4.mk x00 x01 x02 x03 x10 x11 x12 x13 x20 x21 x22 x23 x30 x31 x32 x33).operator_call (-1) 0
        = Except.error "Matrix index out of range!\n" ∧
    ((0 ≤ i ∧ i < 4) ∧ (0 ≤ j ∧ j < 4) →
      ((SquareMatrix4.mk x00 x01 x02 x03 x10 x11 x12 x13 x20 x21 x22 x23 x30 x31 x32 x33).operator_call i j).toOption
        = [x00, x01, x02, x03, x10, x11, x12, x13, x20, x21, x22, x23, x30, x31, x32, x33].get? (4 * i + j).toNat) := by
  refine ⟨?_, ?_, rfl, rfl, ?_⟩
  · rw [← index_valid_iff]
    unfold operator_call
    cases index_valid i j <;> simp
  · rw [← index_valid_iff]
    unfold operator_call_assign
    cases index_valid i j <;> simp
  · rintro ⟨⟨hi0, hi4⟩, hj0, hj4⟩
    interval_cases i <;> interval_cases j <;> rfl

/-- Witness for C7: element `(2,3)` of the matrix built from `0, 1, ..., 15` is
argument number `11`. -/
theorem operator_call_spec_witness :
    (((0 : Int) ≤ 2 ∧ (2 : Int) < 4) ∧ ((0 : Int) ≤ 3 ∧ (3 : Int) < 4)) ∧
    ((SquareMatrix4.mk 0 1 2 3 4 5 6 7 8 9 10 11 12 13 14 (15 : ℤ)).operator_call 2 3).toOption
      = [0, 1, 2, 3, 4, 5, 6, 7, 8, 9, 10, 11, 12, 13, 14, (15 : ℤ)].get? (4 * 2 + 3 : Int).toNat :=
  ⟨by decide,
   (operator_call_spec 0 1 2 3 4 5 6 7 8 9 10 11 12 13 14 (15 : ℤ) 0 2 3).2.2.2.2 (by decide)⟩

/-! ## Products -/

/-- Four terms accumulated from zero. -/
theorem accumulate_zero [CommRing α] (a b c d : α) : 0 + a + b + c + d = a + b + c + d := by
  ring

/-- C8: over a commutative ring the product `A * B` never exits and returns a
matrix whose element `(i,j)` is `Σ_k A(i,k)·B(k,j)`; the operands are values and
are not modified, and the formula holds as well when both operands are the same
matrix. -/
theorem operator_mul_spec [CommRing α] (A B : SquareMatrix4 α) :
    (∃ P, A.operator_mul B = Except.ok P ∧
      ∀ i j : Fin 4, P.operator_call (i.val : Int) (j.val : Int)
        = Except.ok (∑ k : Fin 4, A.data_ i k * B.data_ k j)) ∧
    (∃ Q, A.operator_mul A = Except.ok Q ∧
      ∀ i j : Fin 4, Q.operator_call (i.val : Int) (j.val : Int)
        = Except.ok (∑ k : Fin 4, A.data_ i k * A.data_ k j)) := by
  constructor
  · refine ⟨_, operator_mul_eval A B, ?_⟩
    intro i j
    rw [operator_call_fin, Fin.sum_univ_four]
    fin_cases i <;> fin_cases j <;> exact congrArg Except.ok (accumulate_zero _ _ _ _)
  · refine ⟨_, operator_mul_eval A A, ?_⟩
    intro i j
    rw [operator_call_fin, Fin.sum_univ_four]
    fin_cases i <;> fin_cases j <;> exact congrArg Except.ok (accumulate_zero _ _ _ _)

/-- The double loop of the matrix-vector product, run to completion. -/
theorem operator_mul_vec_eval [Zero α] [Add α] [Mul α] (M : SquareMatrix4 α) (vec : Vector4 α) :
    M.operator_mul_vec vec = Except.ok (Vector4.mk
      (0 + M.x00*vec.v0 + M.x01*vec.v1 + M.x02*vec.v2 + M.x03*vec.v3)
      (0 + M.x10*vec.v0 + M.x11*vec.v1 + M.x12*vec.v2 + M.x13*vec.v3)
      (0 + M.x20*vec.v0 + M.x21*vec.v1 + M.x22*vec.v2 + M.x23*vec.v3)
      (0 + M.x30*vec.v0 + M.x31*vec.v1 + M.x32*vec.v2 + M.x33*vec.v3)) :=
  rfl

/-- C9: over a commutative ring the product `M * v` never exits and returns a
vector whose component `i` is `Σ_j M(i,j)·v(j)`. -/
theorem operator_mul_vec_spec [CommRing α] (M : SquareMatrix4 α) (v : Vector4 α) :
    ∃ r, M.operator_mul_vec v = Except.ok r ∧
      ∀ i : Fin 4, r.operator_index (i.val : Int)
        = Except.ok (∑ j : Fin 4, M.data_ i j * v.component j) := by
  refine ⟨_, operator_mul_vec_eval M v, ?_⟩
  intro i
  rw [Fin.sum_univ_four]
  fin_cases i <;> exact congrArg Except.ok (accumulate_zero _ _ _ _)

/-- C10: over a commutative ring all four products of `(A*B)*C` and `A*(B*C)`
return, and the exact element-wise `operator==` of the two results is true. -/
theorem operator_mul_assoc [CommRing α] [DecidableEq α] (A B C : SquareMatrix4 α) :
    ∃ AB BC P Q, A.operator_mul B = Except.ok AB ∧ AB.operator_mul C = Except.ok P ∧
      B.operator_mul C = Except.ok BC ∧ A.operator_mul BC = Except.ok Q ∧
      P.operator_eq Q = Except.ok true ∧ P = Q := by
  refine ⟨_, _, _, _, operator_mul_eval A B, operator_mul_eval _ C, operator_mul_eval B C,
    operator_mul_eval A _, ?_⟩
  have hPQ : ∀ P Q : SquareMatrix4 α, P = Q → P.operator_eq Q = Except.ok true ∧ P = Q := by
    intro P Q hEq
    subst hEq
    exact ⟨operator_eq_self P, rfl⟩
  apply hPQ
  simp only [SquareMatrix4.mk.injEq]
  refine ⟨?_, ?_, ?_, ?_, ?_, ?_, ?_, ?_, ?_, ?_, ?_, ?_, ?_, ?_, ?_, ?_⟩ <;> ring

/-! ## Element-wise operators -/

/-- The loops of `operator+`, run to completion. -/
theorem operator_add_eval [Zero α] [Add α] (A B : SquareMatrix4 α) :
    A.operator_add B = Except.ok (SquareMatrix4.mk
      (A.x00 + B.x00) (A.x01 + B.x01) (A.x02 + B.x02) (A.x03 + B.x03)
      (A.x10 + B.x10) (A.x11 + B.x11) (A.x12 + B.x12) (A.x13 + B.x13)
      (A.x20 + B.x20) (A.x21 + B.x21) (A.x22 + B.x22) (A.x23 + B.x23)
      (A.x30 + B.x30) (A.x31 + B.x31) (A.x32 + B.x32) (A.x33 + B.x33)) :=
  rfl

/-- The loops of `operator-`, run to completion. -/
theorem operator_sub_eval [Zero α] [Sub α] (A B : SquareMatrix4 α) :
    A.operator_sub B = Except.ok (SquareMatrix4.mk
      (A.x00 - B.x00) (A.x01 - B.x01) (A.x02 - B.x02) (A.x03 - B.x03)
      (A.x10 - B.x10) (A.x11 - B.x11) (A.x12 - B.x12) (A.x13 - B.x13)
      (A.x20 - B.x20) (A.x21 - B.x21) (A.x22 - B.x22) (A.x23 - B.x23)
      (A.x30 - B.x30) (A.x31 - B.x31) (A.x32 - B.x32) (A.x33 - B.x33)) :=
  rfl

/-- The loops of `operator* (Scalar)`, run to completion. -/
theorem operator_mul_scalar_eval [Zero α] [Mul α] (A : SquareMatrix4 α) (s : α) :
    A.operator_mul_scalar s = Except.ok (SquareMatrix4.mk
      (A.x00 * s) (A.x01 * s) (A.x02 * s) (A.x03 * s)
      (A.x10 * s) (A.x11 * s) (A.x12 * s) (A.x13 * s)
      (A.x20 * s) (A.x21 * s) (A.x22 * s) (A.x23 * s)
      (A.x30 * s) (A.x31 * s) (A.x32 * s) (A.x33 * s)) :=
  rfl

/-- The loops of `transpose()`, run to completion. -/
theorem transpose_eval [Zero α] (A : SquareMatrix4 α) :
    A.transpose = Except.ok (SquareMatrix4.mk
      A.x00 A.x10 A.x20 A.x30
      A.x01 A.x11 A.x21 A.x31
      A.x02 A.x12 A.x22 A.x32
      A.x03 A.x13 A.x23 A.x33) :=
  rfl

/-- The loops of `doubleContraction`, run to completion. -/
theorem doubleContraction_eval [Zero α] [Add α] [Mul α] (A B : SquareMatrix4 α) :
    A.doubleContraction B = Except.ok
      (0 + A.x00*B.x00 + A.x01*B.x01 + A.x02*B.x02 + A.x03*B.x03
        + A.x10*B.x10 + A.x11*B.x11 + A.x12*B.x12 + A.x13*B.x13
        + A.x20*B.x20 + A.x21*B.x21 + A.x22*B.x22 + A.x23*B.x23
        + A.x30*B.x30 + A.x31*B.x31 + A.x32*B.x32 + A.x33*B.x33) :=
  rfl

/-- The four reads of `trace()`. -/
theorem trace_eval [Add α] (A : SquareMatrix4 α) :
    A.trace = Except.ok (A.x00 + A.x11 + A.x22 + A.x33) :=
  rfl

/-- Two matrices are equal exactly when their stored elements are. -/
theorem eq_iff_data_ (A B : SquareMatrix4 α) :
    A = B ↔ ∀ i j : Fin 4, A.data_ i j = B.data_ i j := by
  constructor
  · intro h i j
    rw [h]
  · intro h
    cases A
    cases B
    simp only [SquareMatrix4.mk.injEq]
    exact ⟨h 0 0, h 0 1, h 0 2, h 0 3, h 1 0, h 1 1, h 1 2, h 1 3,
      h 2 0, h 2 1, h 2 2, h 2 3, h 3 0, h 3 1, h 3 2, h 3 3⟩

/-- Equal matrices compare equal under `operator==`. -/
theorem operator_eq_of_eq [DecidableEq α] (P Q : SquareMatrix4 α) (h : P = Q) :
    P.operator_eq Q = Except.ok true := by
  subst h
  exact operator_eq_self P

/-- C11: over a commutative ring, `identityMatrix() * A` and `A * identityMatrix()`
both return a matrix that `operator==` finds equal to `A`, and `identityMatrix()`
holds `1` at every `(i,i)` and `0` at every `(i,j)` with `i ≠ j`. -/
theorem identity_mul_spec [CommRing α] [DecidableEq α] (A : SquareMatrix4 α) :
    (∃ P, (identityMatrix : SquareMatrix4 α).operator_mul A = Except.ok P ∧
      P.operator_eq A = Except.ok true ∧ P = A) ∧
    (∃ Q, A.operator_mul identityMatrix = Except.ok Q ∧
      Q.operator_eq A = Except.ok true ∧ Q = A) ∧
    (∀ i j : Fin 4, (identityMatrix : SquareMatrix4 α).operator_call (i.val : Int) (j.val : Int)
      = Except.ok (if i = j then 1 else 0)) := by
  have hl : ∀ P Q : SquareMatrix4 α, P = Q → P.operator_eq Q = Except.ok true ∧ P = Q :=
    fun P Q h => ⟨operator_eq_of_eq P Q h, h⟩
  refine ⟨⟨_, operator_mul_eval _ A, hl _ _ ?_⟩, ⟨_, operator_mul_eval A _, hl _ _ ?_⟩, ?_⟩
  · cases A
    simp [identityMatrix]
  · cases A
    simp [identityMatrix]
  · intro i j
    rw [operator_call_fin]
    fin_cases i <;> fin_cases j <;> rfl

/-- C12: over a commutative ring (the unbounded integers, or the integers
modulo `2^w`), `A + B` returns `S`, `S - B` returns `D`, and `D == A` is true;
`operator==` is true exactly when all 16 corresponding elements are equal. -/
theorem add_sub_cancel_spec [CommRing α] [DecidableEq α] (A B : SquareMatrix4 α) :
    (∃ S D, A.operator_add B = Except.ok S ∧ S.operator_sub B = Except.ok D ∧
      D.operator_eq A = Except.ok true) ∧
    (∀ X Y : SquareMatrix4 α,
      X.operator_eq Y = Except.ok true ↔ ∀ i j : Fin 4, X.data_ i j = Y.data_ i j) := by
  constructor
  · refine ⟨_, _, operator_add_eval A B, operator_sub_eval _ B, operator_eq_of_eq _ _ ?_⟩
    cases A
    simp
  · intro X Y
    rw [operator_eq_eval, ← eq_iff_data_]
    simp

/-- A property of all index pairs, pair by pair. -/
theorem forall_fin_four_iff (p : Fin 4 → Fin 4 → Prop) :
    (∀ i j : Fin 4, p i j) ↔
      (p 0 0 ∧ p 0 1 ∧ p 0 2 ∧ p 0 3 ∧ p 1 0 ∧ p 1 1 ∧ p 1 2 ∧ p 1 3 ∧ p 2 0 ∧ p 2 1 ∧ p 2 2 ∧ p 2 3 ∧ p 3 0 ∧ p 3 1 ∧ p 3 2 ∧ p 3 3) := by
  constructor
  · intro h
    exact ⟨h 0 0, h 0 1, h 0 2, h 0 3, h 1 0, h 1 1, h 1 2, h 1 3, h 2 0, h 2 1, h 2 2, h 2 3, h 3 0, h 3 1, h 3 2, h 3 3⟩
  · rintro ⟨h00, h01, h02, h03, h10, h11, h12, h13, h20, h21, h22, h23, h30, h31, h32, h33⟩ i j
    fin_cases i <;> fin_cases j <;> assumption

/-- C13 (counterexample): for a floating kind, transposing twice the matrix that
holds a NaN at `(0,0)` returns a matrix that `operator==` finds not equal to the
original. -/
theorem transpose_twice_nan_not_equal :
    ∃ T TT, @transpose (Option ℚ) ⟨some 0⟩ sampleNaN = Except.ok T ∧
      @transpose (Option ℚ) ⟨some 0⟩ T = Except.ok TT ∧
      TT.operator_eq_by float_ne sampleNaN = Except.ok false :=
  ⟨_, _, rfl, rfl, rfl⟩

/-- C13 (amended): `A.transpose()` returns a matrix whose element `(i,j)` is
`A(j,i)`; transposing that matrix again returns a matrix holding the elements of
`A`; `operator==` finds it equal to `A` exactly when no element of `A` is unequal
to itself under the scalar kind's `!=`, which is so for every matrix of an exact
kind. -/
theorem transpose_spec [Zero α] [DecidableEq α] (scalar_ne : α → α → Bool)
    (A : SquareMatrix4 α) :
    ∃ T TT, A.transpose = Except.ok T ∧
      (∀ i j : Fin 4, T.operator_call (i.val : Int) (j.val : Int)
        = A.operator_call (j.val : Int) (i.val : Int)) ∧
      T.transpose = Except.ok TT ∧
      (∀ i j : Fin 4, TT.operator_call (i.val : Int) (j.val : Int)
        = A.operator_call (i.val : Int) (j.val : Int)) ∧
      (TT.operator_eq_by scalar_ne A = Except.ok true ↔
        ∀ i j : Fin 4, scalar_ne (A.data_ i j) (A.data_ i j) = false) ∧
      TT.operator_eq A = Except.ok true := by
  refine ⟨_, _, transpose_eval A, ?_, transpose_eval _, ?_, ?_, operator_eq_of_eq _ _ rfl⟩
  · intro i j
    rw [operator_call_fin, operator_call_fin]
    fin_cases i <;> fin_cases j <;> rfl
  · intro i j
    fin_cases i <;> fin_cases j <;> rfl
  · rw [operator_eq_by_eval, forall_fin_four_iff]
    simp [data_, and_assoc]

/-- C14: over a commutative ring, `doubleContraction` returns
`Σ_i Σ_j A(i,j)·B(i,j)`, is commutative, and is additive and homogeneous in each
argument: `(A+C):B = A:B + C:B`, `(A*s):B = s·(A:B)`, `A:(B+C) = A:B + A:C`,
`A:(B*s) = s·(A:B)`. -/
theorem doubleContraction_spec [CommRing α] (A B C : SquareMatrix4 α) (s : α) :
    A.doubleContraction B = Except.ok (∑ i : Fin 4, ∑ j : Fin 4, A.data_ i j * B.data_ i j) ∧
    A.doubleContraction B = B.doubleContraction A ∧
    (∃ S x y z, A.operator_add C = Except.ok S ∧ S.doubleContraction B = Except.ok x ∧
      A.doubleContraction B = Except.ok y ∧ C.doubleContraction B = Except.ok z ∧
      x = y + z) ∧
    (∃ S x y, A.operator_mul_scalar s = Except.ok S ∧ S.doubleContraction B = Except.ok x ∧
      A.doubleContraction B = Except.ok y ∧ x = s * y) ∧
    (∃ S x y z, B.operator_add C = Except.ok S ∧ A.doubleContraction S = Except.ok x ∧
      A.doubleContraction B = Except.ok y ∧ A.doubleContraction C = Except.ok z ∧
      x = y + z) ∧
    (∃ S x y, B.operator_mul_scalar s = Except.ok S ∧ A.doubleContraction S = Except.ok x ∧
      A.doubleContraction B = Except.ok y ∧ x = s * y) := by
  refine ⟨?_, ?_, ?_, ?_, ?_, ?_⟩
  · rw [doubleContraction_eval]
    simp only [Fin.sum_univ_four, data_]
    congr 1
    ring
  · rw [doubleContraction_eval, doubleContraction_eval]
    congr 1
    ring
  · refine ⟨_, _, _, _, operator_add_eval A C, doubleContraction_eval _ B,
      doubleContraction_eval A B, doubleContraction_eval C B, ?_⟩
    ring
  · refine ⟨_, _, _, operator_mul_scalar_eval A s, doubleContraction_eval _ B,
      doubleContraction_eval A B, ?_⟩
    ring
  · refine ⟨_, _, _, _, operator_add_eval B C, doubleContraction_eval A _,
      doubleContraction_eval A B, doubleContraction_eval A C, ?_⟩
    ring
  · refine ⟨_, _, _, operator_mul_scalar_eval B s, doubleContraction_eval A _,
      doubleContraction_eval A B, ?_⟩
    ring

/-- C15: for the rational matrix with rows `(2,0,0,0)`, `(0,2,0,0)`, `(0,0,2,0)`,
`(0,0,0,2)`, `determinant()` is `16`, `inverse()` returns a matrix, and that matrix
is the one `identityMatrix() * (1/2)` returns: `1/2` on the diagonal, `0` elsewhere. -/
theorem scenarioTwoDiagonal_spec :
    scenarioTwoDiagonal.determinant = 16 ∧
    ∃ R, scenarioTwoDiagonal.inverse = Except.ok R ∧
      (identityMatrix : SquareMatrix4 ℚ).operator_mul_scalar (1 / 2) = Except.ok R ∧
      R = SquareMatrix4.mk (1 / 2) 0 0 0 0 (1 / 2) 0 0 0 0 (1 / 2) 0 0 0 0 (1 / 2) := by
  have hdet : scenarioTwoDiagonal.determinant = 16 := by
    norm_num [scenarioTwoDiagonal, determinant]
  have hne : scenarioTwoDiagonal.determinant ≠ 0 := by
    rw [hdet]
    norm_num
  refine ⟨hdet, SquareMatrix4.mk (1 / 2) 0 0 0 0 (1 / 2) 0 0 0 0 (1 / 2) 0 0 0 0 (1 / 2),
    ?_, ?_, rfl⟩
  · rw [inverse_of_ne_zero _ hne, hdet]
    norm_num [scenarioTwoDiagonal, minor_eval, SquareMatrix3.determinant,
      SquareMatrix2.determinant]
  · rw [operator_mul_scalar_eval]
    norm_num [identityMatrix]

/-- C16: for the identity over a commutative ring (the integers in particular),
`I * I` returns a matrix that `operator==` finds equal to `I`, `I.determinant()` is
`1`, `I.trace()` is `4`, and `I.doubleContraction(I)` is `4`. -/
theorem identityMatrix_scenario [CommRing α] [DecidableEq α] :
    (∃ P, (identityMatrix : SquareMatrix4 α).operator_mul identityMatrix = Except.ok P ∧
      P.operator_eq identityMatrix = Except.ok true) ∧
    (identityMatrix : SquareMatrix4 α).determinant = 1 ∧
    (identityMatrix : SquareMatrix4 α).trace = Except.ok 4 ∧
    (identityMatrix : SquareMatrix4 α).doubleContraction identityMatrix = Except.ok 4 := by
  refine ⟨⟨_, operator_mul_eval _ _, operator_eq_of_eq _ _ ?_⟩, ?_, ?_, ?_⟩
  · simp [identityMatrix]
  · simp [identityMatrix, determinant]
  · rw [trace_eval]
    congr 1
    norm_num [identityMatrix]
  · rw [doubleContraction_eval]
    congr 1
    norm_num [identityMatrix]

/-! ## Integer kinds -/

/-- C20: over a commutative ring, `A.transpose()` returns a matrix with the same
built-in determinant as `A`, and `inverse()` exits on it exactly when it exits
on `A`. -/
theorem determinant_transpose [CommRing α] [Div α] [DecidableEq α] (A : SquareMatrix4 α) :
    ∃ T, A.transpose = Except.ok T ∧ T.determinant = A.determinant ∧
      ((∃ msg, T.inverse = Except.error msg) ↔ (∃ msg, A.inverse = Except.error msg)) := by
  have hdet : (SquareMatrix4.mk A.x00 A.x10 A.x20 A.x30 A.x01 A.x11 A.x21 A.x31
      A.x02 A.x12 A.x22 A.x32 A.x03 A.x13 A.x23 A.x33).determinant = A.determinant := by
    simp only [determinant]
    ring
  refine ⟨_, transpose_eval A, hdet, ?_⟩
  by_cases h : A.determinant = 0
  · rw [inverse_of_eq_zero A h, inverse_of_eq_zero _ (hdet.trans h)]
  · rw [inverse_of_ne_zero A h, inverse_of_ne_zero _ (fun hz => h (hdet.symm.trans hz))]
    simp

/-- C19: over a commutative ring the product `A * B` returns a matrix whose
built-in determinant is `A.determinant() * B.determinant()`. -/
theorem determinant_mul [CommRing α] (A B : SquareMatrix4 α) :
    ∃ P, A.operator_mul B = Except.ok P ∧ P.determinant = A.determinant * B.determinant := by
  refine ⟨_, operator_mul_eval A B, ?_⟩
  simp only [determinant]
  ring

end SquareMatrix4

end Physika
